import Mathlib

/-!
Verification of the redis-search filter-query compiler and listing path of
`ms-users`, shallowly embedded from
`src/utils/redis-search-stack/normalize-filter-prop.js` (which also carries the
`build-search-query` module) and `src/utils/jwt.js`.  The `expressions` module
and the list-service orchestration are not part of the shown source; the
definitions standing in for them are marked `Modelled from the spec:`.
-/

namespace MsUsers

/-- JavaScript numbers, abstracted to the distinctions the compiler can
observe: a finite value, the two infinities, and NaN. -/
inductive JsNum where
  | fin (q : ℚ)
  | inf
  | ninf
  | nan
deriving DecidableEq, Repr

/-- JavaScript runtime values flowing through the filter compiler: `undefined`,
strings, numbers, arrays and plain objects (insertion-ordered key/value
lists). -/
inductive JsVal where
  | undefined
  | str (s : String)
  | num (n : JsNum)
  | list (xs : List JsVal)
  | obj (kvs : List (String × JsVal))

/-- Errors a compilation step can surface.  `typeError` stands for a thrown
JavaScript `TypeError` (calling a non-function, reading a property of
`undefined`); `validationError` is the `common-errors` ValidationError the
spec talks about. -/
inductive JsError where
  | typeError
  | validationError (msg : String)
deriving DecidableEq, Repr

/-- Rendering of a JavaScript number by string coercion.  Non-integer finite
rendering is approximated; no claim depends on the decimal form. -/
def jsNumToString : JsNum → String
  | .fin q => if q.den = 1 then toString q.num else toString q
  | .inf => "Infinity"
  | .ninf => "-Infinity"
  | .nan => "NaN"

mutual

/-- JavaScript ToString coercion, as used by template literals and by
property-key conversion: objects render as `[object Object]`, arrays join
their elements with commas. -/
def jsToString : JsVal → String
  | .undefined => "undefined"
  | .str s => s
  | .num n => jsNumToString n
  | .list xs => String.intercalate "," (jsToStringList xs)
  | .obj _ => "[object Object]"

/-- Element rendering for `Array.prototype.join`/`toString`: `undefined`
elements render as the empty string. -/
def jsToStringList : List JsVal → List String
  | [] => []
  | .undefined :: xs => "" :: jsToStringList xs
  | x :: xs => jsToString x :: jsToStringList xs

end

/-- JavaScript property access `o.k`.  Reading a property of `undefined`
throws a TypeError; a missing key on an object yields `undefined`; strings,
numbers and arrays have none of the properties the compiler reads. -/
def jsGetProp : JsVal → String → Except JsError JsVal
  | .undefined, _ => .error .typeError
  | .obj kvs, k => .ok ((kvs.lookup k).getD .undefined)
  | _, _ => .ok .undefined

/-- JavaScript `v.join(sep)`: defined for arrays only; on any other value the
call throws a TypeError (`join` is not a function / cannot read `join`). -/
def jsArrayJoin (v : JsVal) (sep : String) : Except JsError String :=
  match v with
  | .list xs => .ok (String.intercalate sep (jsToStringList xs))
  | _ => .error .typeError

/-- ToPropertyKey coercion used when an object is indexed with a non-string:
`searchQueryBuilder[valueOrExpr]` converts the subscript with ToString. -/
def jsToPropertyKey : JsVal → String := jsToString

/-- Modelled from the spec: the identity field constant (`USERS_ID_FIELD`
from `src/constants`, whose source is not shown).  No claim depends on its
concrete value. -/
def USERS_ID_FIELD : String := "id"

/-- Modelled from the spec: field reference of the `expressions` module (not
in the shown source) — a clause is `@<field>:<value-expr>`. -/
def namedField (name : String) : String := "@" ++ name

/-- Modelled from the spec: clause composition `field:valueExpr` of the
`expressions` module.  The value position is `Option String` so that the
source's call `expression(field)` — one argument, value `undefined` — renders
with JavaScript's string coercion of `undefined`. -/
def expression (field : String) (value : Option String) : String :=
  field ++ ":" ++ value.getD "undefined"

/-- Modelled from the spec: tag-literal wrapper of the `expressions`
module — exact/tag equality is rendered in braces. -/
def tag (v : String) : String := "\x7b" ++ v ++ "\x7d"

/-- Modelled from the spec: parameter placeholder of the `expressions`
module. -/
def paramRef (name : String) : String := "$" ++ name

/-- Modelled from the spec: negation wrapper of the `expressions` module —
a clause is negated by prefixing the negation marker.  It is unary. -/
def negative (e : String) : String := "-" ++ e

/-- Modelled from the spec: "matches any token, prefix-capable" wrapper of
the `expressions` module. -/
def matchAny (v : String) : String := "(" ++ v ++ "*)"

/-- Modelled from the spec: numeric-range constructor of the `expressions`
module: `[lo hi]` with unbounded-side sentinels for an absent (that is,
`undefined`) bound.  Per the spec it is a pure syntax constructor and
performs no validation: any supplied bound is rendered and embedded. -/
def numericRange (lo hi : JsVal) : String :=
  "[" ++ (match lo with | .undefined => "-inf" | v => jsToString v)
      ++ " "
      ++ (match hi with | .undefined => "+inf" | v => jsToString v)
      ++ "]"

/-- `normalizeFilterProp` from the source: `#` resolves to the identity
field, `#multi` joins `actionTypeOrValue.fields` with the union separator,
every other property name is returned unchanged. -/
def normalizeFilterProp (propName : String) (actionTypeOrValue : JsVal) :
    Except JsError String :=
  if propName = "#" then
    .ok USERS_ID_FIELD
  else if propName = "#multi" then do
    let fs ← jsGetProp actionTypeOrValue "fields"
    jsArrayJoin fs "|"
  else
    .ok propName

/-- `EMPTY_VALUE` from the source: the reserved empty-marker literal. -/
def EMPTY_VALUE : String := "\"\""

/-- `buildParamName` from the source: joins its arguments with
underscores. -/
def buildParamName (args : List String) : String := String.intercalate "_" args

/-- `normalizePropName` from the source: replaces every union separator
with an underscore (the regex replaces the single character globally). -/
def normalizePropName (prop : String) : String :=
  (prop.data.map (fun c => if c = '|' then '_' else c)).asString

/-- `searchQueryBuilder.gte` from the source:
`expression(field, numericRange(expr.gte, expr.lte))`. -/
def sqbGte (_prop field : String) (expr : JsVal) : Except JsError String := do
  let g ← jsGetProp expr "gte"
  let l ← jsGetProp expr "lte"
  .ok (expression field (some (numericRange g l)))

/-- `searchQueryBuilder.lte` from the source: identical body to `gte`. -/
def sqbLte (_prop field : String) (expr : JsVal) : Except JsError String := do
  let g ← jsGetProp expr "gte"
  let l ← jsGetProp expr "lte"
  .ok (expression field (some (numericRange g l)))

/-- `searchQueryBuilder.exists` from the source:
`negative(expression(field, EMPTY_VALUE))`. -/
def sqbExists (_prop field : String) (_expr : JsVal) : Except JsError String :=
  .ok (negative (expression field (some EMPTY_VALUE)))

/-- `searchQueryBuilder.isempty` from the source:
`expression(field, EMPTY_VALUE)`. -/
def sqbIsempty (_prop field : String) (_expr : JsVal) : Except JsError String :=
  .ok (expression field (some EMPTY_VALUE))

/-- `searchQueryBuilder.eq` from the source. -/
def sqbEq (prop field : String) (_expr : JsVal) : Except JsError String :=
  let name := buildParamName ["f", prop, "eq"]
  .ok (expression field (some (tag (paramRef name))))

/-- `searchQueryBuilder.ne` from the source:
`negative(expression(field), tag(paramRef(name)))` — `negative` is unary, so
the tag-wrapped parameter reference is an ignored extra argument, and
`expression` is called without its value argument. -/
def sqbNe (prop field : String) (_expr : JsVal) : Except JsError String :=
  let name := buildParamName ["f", prop, "ne"]
  let _ignoredExtraArg := tag (paramRef name)
  .ok (negative (expression field none))

/-- `searchQueryBuilder.match` from the source. -/
def sqbMatch (prop field : String) (_expr : JsVal) : Except JsError String :=
  let propName := normalizePropName prop
  let name := buildParamName ["f", propName, "m"]
  .ok (expression field (some (matchAny (paramRef name))))

/-- The `searchQueryBuilder` dispatch object from the source, as the map
from property key to builder that the object literal denotes. -/
def searchQueryBuilder :
    String → Option (String → String → JsVal → Except JsError String)
  | "gte" => some sqbGte
  | "lte" => some sqbLte
  | "exists" => some sqbExists
  | "isempty" => some sqbIsempty
  | "eq" => some sqbEq
  | "ne" => some sqbNe
  | "match" => some sqbMatch
  | _ => none

/-- `searchParamBuilder.eq` from the source: `[name, expr.eq]`. -/
def spbEq (prop : String) (expr : JsVal) : Except JsError (String × JsVal) := do
  let v ← jsGetProp expr "eq"
  .ok (buildParamName ["f", prop, "eq"], v)

/-- `searchParamBuilder.ne` from the source: `[name, expr.ne]`. -/
def spbNe (prop : String) (expr : JsVal) : Except JsError (String × JsVal) := do
  let v ← jsGetProp expr "ne"
  .ok (buildParamName ["f", prop, "ne"], v)

/-- `searchParamBuilder.match` from the source: `[name, expr.match]`. -/
def spbMatch (prop : String) (expr : JsVal) : Except JsError (String × JsVal) := do
  let v ← jsGetProp expr "match"
  .ok (buildParamName ["f", normalizePropName prop, "m"], v)

/-- The `searchParamBuilder` dispatch object from the source — only `eq`,
`ne` and `match` produce a parameter binding. -/
def searchParamBuilder :
    String → Option (String → JsVal → Except JsError (String × JsVal))
  | "eq" => some spbEq
  | "ne" => some spbNe
  | "match" => some spbMatch
  | _ => none

/-- One compiled criterion: the clause text and the parameter binding, when
any (the source returns `[pName, value]` or `[]`). -/
structure CompiledClause where
  query : String
  params : Option (String × JsVal)

/-- `buildSearchQuery` from the source.  A plain string value compiles to a
tag-equality clause with one binding.  For any other value the source
evaluates `searchQueryBuilder[valueOrExpr]`: the subscript is coerced with
ToPropertyKey (an object becomes `[object Object]`), the table has no such
key, and calling the resulting `undefined` throws a TypeError. -/
def buildSearchQuery (propName : String) (valueOrExpr : JsVal) :
    Except JsError CompiledClause :=
  let field := namedField propName
  match valueOrExpr with
  | .str v =>
    let pName := buildParamName ["f", field]
    let query := expression field (some (tag (paramRef pName)))
    .ok ⟨query, some (pName, .str v)⟩
  | _ =>
    match searchQueryBuilder (jsToPropertyKey valueOrExpr) with
    | none => .error .typeError
    | some buildQuery => do
      let query ← buildQuery propName field valueOrExpr
      match searchParamBuilder (jsToPropertyKey valueOrExpr) with
      | some buildParams => do
        let p ← buildParams propName valueOrExpr
        .ok ⟨query, some p⟩
      | none => .ok ⟨query, none⟩

/-- Modelled from the spec: `QueryAssembler.assemble` (§4.4, not in the shown
source) — iterates the filter mapping in insertion order, compiles each
criterion with `buildSearchQuery`, and merges clause texts and parameter
lists preserving encounter order.  A failing criterion fails the whole
compilation. -/
def assemble :
    List (String × JsVal) →
    Except JsError (List String × List (String × JsVal))
  | [] => .ok ([], [])
  | (p, v) :: rest =>
    match buildSearchQuery p v with
    | .error e => .error e
    | .ok c =>
      match assemble rest with
      | .error e => .error e
      | .ok (qs, ps) =>
        .ok (c.query :: qs,
             (match c.params with | some pr => [pr] | none => []) ++ ps)

/-- The parameter name assigned by the plain-string branch of
`buildSearchQuery`. -/
def stringParamName (p : String) : String := buildParamName ["f", namedField p]

/-- Criterion forms the claims quantify over: a plain string or an operator
object. -/
def isStrOrObj : JsVal → Bool
  | .str _ => true
  | .obj _ => true
  | _ => false

/-- A list request, as in spec §3: audience, sort criterion, pagination and
the filter mapping. -/
structure ListRequest where
  audience : String
  criteria : String
  offset : Int
  limit : Int
  filter : List (String × JsVal)

/-- Errors the listing path can surface: pagination/filter validation
failures and the not-registered condition. -/
inductive ListError where
  | validation (msg : String)
  | indexNotRegistered (audience : String)
deriving DecidableEq, Repr

/-- Rendering of a listing error.  The not-registered message is the one the
repository's own test asserts: it contains the literal audience string. -/
def listErrorMessage : ListError → String
  | .validation m => m
  | .indexNotRegistered a => "Search index does not registered for `" ++ a ++ "`"

/-- One hydrated user of a list result: id plus audience-scoped metadata. -/
structure ListUser where
  id : String
  metadata : List (String × List (String × String))

/-- Modelled from the spec: `ListService.list` (§4.6, not in the shown
source).  Pagination is validated first; the index is then resolved against
the registry and an unregistered audience fails with the not-registered
error; the filter is compiled; engine execution failures are downgraded to
an empty result while compile failures surface as validation errors.  The
engine and the metadata store are abstract collaborators. -/
def listUsers (maxLimit : Int) (registry : List String)
    (execute : String → List String → String → Int → Int → Option (List String))
    (fetchMeta : String → String → List (String × String))
    (req : ListRequest) : Except ListError (List ListUser) :=
  if req.offset < 0 ∨ req.limit ≤ 0 ∨ maxLimit < req.limit then
    .error (.validation "invalid pagination")
  else if req.audience ∈ registry then
    match assemble req.filter with
    | .error _ => .error (.validation "unsupported filter")
    | .ok (clauses, _params) =>
      match execute req.audience clauses req.criteria req.offset req.limit with
      | none => .ok []
      | some ids =>
        .ok (ids.map fun i => ⟨i, [(req.audience, fetchMeta i req.audience)]⟩)
  else
    .error (.indexNotRegistered req.audience)

/-- `getAudience` from `src/utils/jwt.js`: the metadata audiences are the
requested audience followed by the default one when they differ, and just
the one audience when they coincide. -/
def getAudience (defaultAudience audience : String) : List String :=
  if audience ≠ defaultAudience then [audience, defaultAudience] else [audience]

/-- The metadata-hydration audience list computed by `login` in
`src/utils/jwt.js`: `audience = _audience || defaultAudience` followed by
`getAudience(defaultAudience, audience)`.  The empty string is the falsy
string, so it models a missing or empty `_audience` argument. -/
def loginMetadataAudience (defaultAudience _audience : String) : List String :=
  getAudience defaultAudience
    (if _audience = "" then defaultAudience else _audience)

/-! Helper lemmas. -/

/-- Appending on the left of a string is cancellative. -/
theorem string_append_left_cancel {a b c : String} (h : a ++ b = a ++ c) :
    b = c := by
  apply String.ext
  have hd : a.data ++ b.data = a.data ++ c.data := by
    simpa [String.data_append] using congrArg String.data h
  exact List.append_cancel_left hd

/-- The parameter name of the plain-string branch is injective in the
property name. -/
theorem stringParamName_injective : Function.Injective stringParamName := by
  intro p q h
  have h1 : "f_" ++ ("@" ++ p) = "f_" ++ ("@" ++ q) := h
  exact string_append_left_cancel (string_append_left_cancel h1)

/-- Array-join rendering of an array of strings gives back the strings. -/
theorem jsToStringList_map_str (fs : List String) :
    jsToStringList (fs.map .str) = fs := by
  induction fs with
  | nil => rfl
  | cons f fs ih => simp [jsToStringList, jsToString, ih]

/-- Compiling any object criterion throws: the builder lookup coerces the
object to the property key `[object Object]`, which the dispatch table does
not contain, and the resulting `undefined` is called. -/
theorem buildSearchQuery_obj (p : String) (kvs : List (String × JsVal)) :
    buildSearchQuery p (.obj kvs) = .error .typeError := rfl

/-- The plain-string branch of `buildSearchQuery`: a tag-equality clause
against the parameter named from the field, and one binding carrying the
value. -/
theorem buildSearchQuery_str (p v : String) :
    buildSearchQuery p (.str v) =
      .ok ⟨expression (namedField p) (some (tag (paramRef (stringParamName p)))),
           some (stringParamName p, .str v)⟩ := rfl

/-- On a successfully assembled filter mapping of plain-string or object
criteria, the parameter names are exactly the string-branch names of the
property names, in order. -/
theorem assemble_ok_names (m : List (String × JsVal))
    (hf : ∀ pv ∈ m, isStrOrObj pv.2 = true)
    (qs : List String) (ps : List (String × JsVal))
    (h : assemble m = .ok (qs, ps)) :
    ps.map Prod.fst = m.map (fun pv => stringParamName pv.1) := by
  induction m generalizing qs ps with
  | nil =>
    simp [assemble] at h
    obtain ⟨h1, h2⟩ := h
    subst h2
    simp
  | cons hd tl ih =>
    obtain ⟨p, v⟩ := hd
    have hv : isStrOrObj v = true := hf (p, v) (List.mem_cons_self _ _)
    cases v with
    | str s =>
      rw [assemble, buildSearchQuery_str] at h
      cases htl : assemble tl with
      | error e => rw [htl] at h; exact absurd h (by simp)
      | ok pr =>
        obtain ⟨qs', ps'⟩ := pr
        rw [htl] at h
        simp only [Except.ok.injEq, Prod.mk.injEq] at h
        obtain ⟨-, hps⟩ := h
        subst hps
        simpa using ih (fun pv hm => hf pv (List.mem_cons_of_mem _ hm)) qs' ps' htl
    | obj kvs =>
      rw [assemble, buildSearchQuery_obj] at h
      exact absurd h (by simp)
    | undefined => simp [isStrOrObj] at hv
    | num n => simp [isStrOrObj] at hv
    | list xs => simp [isStrOrObj] at hv

/-! Claim theorems. -/

/-- Claim C1 (code bug).  The source evaluates
`searchQueryBuilder[valueOrExpr]` with the criterion object itself as
subscript; the object coerces to the property key `[object Object]`, the
table has no such key, and calling the resulting `undefined` throws a
TypeError.  So every object criterion — a recognized operator key such as
`match` (first conjunct, the repository's own passing test input) just as
much as an unrecognized one — fails with a TypeError instead of being
compiled by its operator's builder or rejected with
`ValidationError("unsupported filter operator")`. -/
theorem buildSearchQuery_object_dispatch_typeError :
    buildSearchQuery "firstName" (.obj [("match", .str "Johhny")]) =
      .error .typeError ∧
    ∀ (p : String) (kvs : List (String × JsVal)),
      buildSearchQuery p (.obj kvs) = .error .typeError :=
  ⟨buildSearchQuery_obj _ _, buildSearchQuery_obj⟩

/-- Claim C2 (counterexample).  At property `username` with value `gmail`
(the repository's own NE test input), the `ne` builder produces
`-@username:undefined`, not the claimed negated tag-equality
`-@username:{$f_username_ne}`: the tag-wrapped parameter placeholder is not
part of the negated clause. -/
theorem ne_clause_counterexample :
    sqbNe "username" (namedField "username") (.obj [("ne", .str "gmail")]) =
      .ok "-@username:undefined" ∧
    "-@username:undefined" ≠
      negative (expression (namedField "username")
        (some (tag (paramRef (buildParamName ["f", "username", "ne"]))))) :=
  ⟨rfl, by decide⟩

/-- Claim C2 (amended).  For every property name and value, the `ne` builder
applies the negation wrapper to the bare field expression (its value
position rendering as `undefined`): the tag-wrapped parameter reference is
computed but passed as an ignored extra argument to the unary negation
wrapper, so the comparison value is not embedded in the clause.  The single
binding (`f_<prop>_ne`, value) is still produced by the parameter builder. -/
theorem ne_clause_negates_bare_field_and_binds_param
    (p : String) (v e : JsVal) :
    sqbNe p (namedField p) e = .ok (negative (expression (namedField p) none)) ∧
    spbNe p (.obj [("ne", v)]) = .ok (buildParamName ["f", p, "ne"], v) :=
  ⟨rfl, rfl⟩

/-- Claim C3.  For every property name and any two plain string values, the
plain-string branch of `buildSearchQuery` produces the same clause text and
the same parameter name; the value appears only as the bound value of the
returned parameter binding, never in the clause text. -/
theorem clause_text_independent_of_value (p v1 v2 : String) :
    ∃ q n, buildSearchQuery p (.str v1) = .ok ⟨q, some (n, .str v1)⟩ ∧
           buildSearchQuery p (.str v2) = .ok ⟨q, some (n, .str v2)⟩ :=
  ⟨_, _, rfl, rfl⟩

/-- Claim C4.  For every filter mapping of plain-string or operator-object
criteria with pairwise distinct property names, a successful compilation
yields pairwise distinct parameter names (under the source's dispatch only
plain-string criteria compile, and their names `f_@<prop>` are injective in
the property name). -/
theorem assemble_param_names_pairwise_distinct (m : List (String × JsVal))
    (hf : ∀ pv ∈ m, isStrOrObj pv.2 = true)
    (hkeys : (m.map Prod.fst).Nodup)
    (qs : List String) (ps : List (String × JsVal))
    (h : assemble m = .ok (qs, ps)) :
    (ps.map Prod.fst).Nodup := by
  rw [assemble_ok_names m hf qs ps h]
  have hmap : m.map (fun pv => stringParamName pv.1) =
      (m.map Prod.fst).map stringParamName := by
    rw [List.map_map]; rfl
  rw [hmap]
  exact hkeys.map stringParamName_injective

/-- Witness for claim C4 at a concrete two-criterion mapping. -/
theorem assemble_param_names_pairwise_distinct_witness :
    (([("f_@username", JsVal.str "ann"),
       ("f_@firstName", JsVal.str "Jo")].map Prod.fst).Nodup) :=
  assemble_param_names_pairwise_distinct
    [("username", .str "ann"), ("firstName", .str "Jo")]
    (by decide) (by decide)
    ["@username:\x7b$f_@username\x7d", "@firstName:\x7b$f_@firstName\x7d"]
    [("f_@username", .str "ann"), ("f_@firstName", .str "Jo")]
    rfl

/-- Claim C5 (counterexample).  The range builder embeds a non-finite bound
(`Infinity`), a non-numeric bound (`"abc"`) and `NaN` directly into the
clause text and succeeds; no `ValidationError` is raised before
embedding. -/
theorem range_no_validation_counterexample :
    sqbGte "age" (namedField "age") (.obj [("gte", .num .inf)]) =
      .ok "@age:[Infinity +inf]" ∧
    sqbGte "age" (namedField "age")
        (.obj [("gte", .str "abc"), ("lte", .num .nan)]) =
      .ok "@age:[abc NaN]" :=
  ⟨rfl, rfl⟩

/-- Claim C5 (amended).  The `gte`/`lte` builders perform no validation:
every supplied bound, finite or not, numeric or not, is rendered and
embedded directly into the range position of the clause, and an absent
bound becomes the unbounded sentinel on its side. -/
theorem range_builder_embeds_any_bounds (p : String) (g l : JsVal) :
    sqbGte p (namedField p) (.obj [("gte", g), ("lte", l)]) =
      .ok (expression (namedField p) (some (numericRange g l))) ∧
    sqbLte p (namedField p) (.obj [("gte", g), ("lte", l)]) =
      .ok (expression (namedField p) (some (numericRange g l))) ∧
    sqbGte p (namedField p) (.obj [("gte", g)]) =
      .ok (expression (namedField p) (some (numericRange g .undefined))) :=
  ⟨rfl, rfl, rfl⟩

/-- Claim C6.  The field resolver maps `#` to the identity field constant
for any extra argument, maps `#multi` with a supplied fields sequence to the
field names joined by the union separator, and returns every other property
name unchanged. -/
theorem normalizeFilterProp_resolution (p : String) (extra : JsVal)
    (fs : List String) :
    normalizeFilterProp "#" extra = .ok USERS_ID_FIELD ∧
    normalizeFilterProp "#multi" (.obj [("fields", .list (fs.map .str))]) =
      .ok (String.intercalate "|" fs) ∧
    (p ≠ "#" → p ≠ "#multi" → normalizeFilterProp p extra = .ok p) := by
  refine ⟨rfl, ?_, ?_⟩
  · have h : normalizeFilterProp "#multi" (.obj [("fields", .list (fs.map .str))]) =
        .ok (String.intercalate "|" (jsToStringList (fs.map .str))) := rfl
    rw [h, jsToStringList_map_str]
  · intro h1 h2
    simp [normalizeFilterProp, h1, h2]

/-- Witness for claim C6 at concrete inputs (the repository's own `#multi`
test fields). -/
theorem normalizeFilterProp_resolution_witness :
    normalizeFilterProp "#" .undefined = .ok USERS_ID_FIELD ∧
    normalizeFilterProp "#multi"
        (.obj [("fields", .list [JsVal.str "firstName", JsVal.str "lastName"])]) =
      .ok "firstName|lastName" ∧
    normalizeFilterProp "username" .undefined = .ok "username" := by
  have h := normalizeFilterProp_resolution "username" .undefined
    ["firstName", "lastName"]
  exact ⟨h.1, h.2.1, h.2.2 (by decide) (by decide)⟩

/-- Claim C7 (counterexample).  Resolving `#multi` with an extra argument
that lacks a `fields` sequence throws a TypeError (reading `join` of
`undefined`), not `ValidationError("malformed multi-field filter")`. -/
theorem multi_missing_fields_counterexample :
    normalizeFilterProp "#multi" (.obj [("match", .str "Joe")]) =
      .error .typeError ∧
    normalizeFilterProp "#multi" (.obj [("match", .str "Joe")]) ≠
      .error (.validationError "malformed multi-field filter") :=
  ⟨rfl, fun heq => JsError.noConfusion (Except.error.inj heq)⟩

/-- Claim C7 (amended).  For every extra argument that lacks a fields
sequence — an object without a `fields` key, or no object at all — resolving
`#multi` throws a TypeError rather than a ValidationError. -/
theorem multi_missing_fields_typeError (kvs : List (String × JsVal))
    (h : kvs.lookup "fields" = none) :
    normalizeFilterProp "#multi" (.obj kvs) = .error .typeError ∧
    normalizeFilterProp "#multi" .undefined = .error .typeError := by
  refine ⟨?_, rfl⟩
  simp only [normalizeFilterProp, jsGetProp, h, jsArrayJoin]
  rfl

/-- Witness for claim C7 at a concrete object lacking `fields`. -/
theorem multi_missing_fields_typeError_witness :
    ([(("match" : String), JsVal.str "Joe")].lookup "fields" = none) ∧
    normalizeFilterProp "#multi" (.obj [("match", .str "Joe")]) =
      .error .typeError :=
  ⟨rfl, (multi_missing_fields_typeError [("match", .str "Joe")] rfl).1⟩

/-- Claim C8.  For every field, the `exists` builder's clause is exactly the
negation wrapper applied to the `isempty` builder's clause; `isempty` is
equality against the fixed empty-marker literal; and neither operator has a
parameter builder, so per the source's fallback both compile with zero
parameter bindings. -/
theorem exists_is_negated_isempty (prop field : String) (e1 e2 : JsVal) :
    sqbExists prop field e1 = Except.map negative (sqbIsempty prop field e2) ∧
    sqbIsempty prop field e2 = .ok (expression field (some EMPTY_VALUE)) ∧
    searchParamBuilder "exists" = none ∧
    searchParamBuilder "isempty" = none :=
  ⟨rfl, rfl, rfl, rfl⟩

/-- Claim C9.  For every list request with valid pagination whose audience
has no provisioned index, the listing fails with the not-registered error —
independent of the engine and metadata collaborators, so it is never
downgraded to an empty result — and the error message contains the literal
audience string. -/
theorem list_unregistered_audience_fails
    (maxLimit : Int) (registry : List String)
    (execute : String → List String → String → Int → Int → Option (List String))
    (fetchMeta : String → String → List (String × String))
    (req : ListRequest)
    (hoff : 0 ≤ req.offset) (hpos : 0 < req.limit) (hmax : req.limit ≤ maxLimit)
    (hreg : req.audience ∉ registry) :
    listUsers maxLimit registry execute fetchMeta req =
      .error (.indexNotRegistered req.audience) ∧
    ∃ pre post, listErrorMessage (.indexNotRegistered req.audience) =
      pre ++ req.audience ++ post := by
  have hpag : ¬(req.offset < 0 ∨ req.limit ≤ 0 ∨ maxLimit < req.limit) := by
    simp only [not_or, not_lt, not_le]
    exact ⟨hoff, hpos, hmax⟩
  refine ⟨?_, "Search index does not registered for `", "`", rfl⟩
  simp [listUsers, hpag, hreg]

/-- Witness for claim C9 at the repository's own test audience. -/
theorem list_unregistered_audience_fails_witness :
    listUsers 10 ["*.localhost"] (fun _ _ _ _ _ => none) (fun _ _ => [])
        ⟨"not-existing-audience", "username", 0, 10, []⟩ =
      .error (.indexNotRegistered "not-existing-audience") ∧
    ∃ pre post, listErrorMessage (.indexNotRegistered "not-existing-audience") =
      pre ++ "not-existing-audience" ++ post :=
  list_unregistered_audience_fails 10 ["*.localhost"]
    (fun _ _ _ _ _ => none) (fun _ _ => [])
    ⟨"not-existing-audience", "username", 0, 10, []⟩
    (by decide) (by decide) (by decide) (by decide)

/-- Claim C10 (counterexample).  With default audience `x` and requested
audience the empty (falsy) string, `login` hydrates against `[x]` only: the
list is not `["", x]` and does not contain the requested audience. -/
theorem login_audience_empty_counterexample :
    loginMetadataAudience "x" "" = ["x"] ∧
    loginMetadataAudience "x" "" ≠ ["", "x"] ∧
    ("" : String) ∉ loginMetadataAudience "x" "" := by decide

/-- Claim C10 (amended).  For every non-empty (truthy) requested audience,
the hydration audience list is `[a]` when the requested audience equals the
default and `[a, d]` otherwise; it contains both audiences and has no
duplicates.  A falsy (empty or missing) requested audience is first replaced
by the default, so the list is `[d]`. -/
theorem login_metadata_audience_spec (d a : String) (h : a ≠ "") :
    loginMetadataAudience d a = (if a = d then [a] else [a, d]) ∧
    a ∈ loginMetadataAudience d a ∧ d ∈ loginMetadataAudience d a ∧
    (loginMetadataAudience d a).Nodup ∧
    loginMetadataAudience d "" = [d] := by
  by_cases hd : a = d
  · subst hd
    simp [loginMetadataAudience, getAudience, h]
  · simp [loginMetadataAudience, getAudience, h, hd]

/-- Witness for claim C10 at concrete audiences. -/
theorem login_metadata_audience_spec_witness :
    loginMetadataAudience "x" "y" =
      (if ("y" : String) = "x" then ["y"] else ["y", "x"]) ∧
    ("y" : String) ∈ loginMetadataAudience "x" "y" ∧
    ("x" : String) ∈ loginMetadataAudience "x" "y" ∧
    (loginMetadataAudience "x" "y").Nodup ∧
    loginMetadataAudience "x" "" = ["x"] :=
  login_metadata_audience_spec "x" "y" (by decide)

end MsUsers
